import Mathlib

/-!
Shallow embedding of the external-systems integration layer of
`collective_market` (source file: the integration helpers module that
manages the Redis client, the InfluxDB placeholder, the ZMQ subscriber
socket and the MySQL pool, plus the health-check functions).

The source is TypeScript running on a single-threaded event loop:
  * an `async` function body runs synchronously until its first `await`;
  * module-level `let` variables (`redisClient`, `zmqSocket`, `mysqlPool`)
    are shared mutable state, modelled here as explicit state records
    threaded through the functions;
  * `try { ... } catch { ... }` is modelled with `Except` for the tryable
    region (an exception is `.error`), the surrounding catch turning every
    `.error` into the value the catch block returns;
  * outcomes of awaited network primitives (connect, ping, GET, execute,
    …) are inputs of the model: the environment decides whether the
    promise resolves, rejects, or never settles.
-/

/-! ## Redis client (module variable `redisClient`, lines 11-71) -/

/-- A Redis client object created by `redis.createClient` (line 20).
`attemptId` is a ghost tag identifying the connect attempt that created
the object, so that theorems can speak about which attempt a returned
handle came from. -/
structure RedisHandle where
  attemptId : Nat
  deriving DecidableEq, Repr

/-- The module-level mutable variable `let redisClient = ... | null`
(line 11). -/
structure RedisGlobal where
  redisClient : Option RedisHandle
  deriving DecidableEq, Repr

/-- Where a call to `getRedisClient` stands after its synchronous prefix:
either it already returned (line 14, the memoized fast path), or it is
suspended at `await redisClient.connect()` (line 29). -/
inductive AcquireCont where
  | returned (res : Option RedisHandle)
  | awaitingConnect (c : RedisHandle)
  deriving DecidableEq, Repr

/-- Synchronous prefix of `getRedisClient` (lines 13-29): the body of an
`async` function runs without interruption up to its first `await`.  If
`redisClient` is set it returns it at once (line 14); otherwise it
creates a client and assigns the module variable (lines 20-26) — the
assignment happens **before** the suspension at `await
redisClient.connect()` (line 29).  The returned `Nat` counts connect
attempts started (0 or 1). -/
def getRedisClientSync (g : RedisGlobal) (freshId : Nat) :
    RedisGlobal × AcquireCont × Nat :=
  match g.redisClient with
  | some c => (g, .returned (some c), 0)
  | none => (⟨some ⟨freshId⟩⟩, .awaitingConnect ⟨freshId⟩, 1)

/-- Resumption of `getRedisClient` once the awaited connect promise
settles.  On resolution it logs and returns the client (lines 31-32); on
rejection control jumps to the catch (lines 33-36), which logs and
returns `null` — note that the catch does **not** clear `redisClient`,
so the module variable keeps the handle created by the failed attempt. -/
def getRedisClientSettle (g : RedisGlobal) (k : AcquireCont)
    (connectOk : Bool) : RedisGlobal × Option RedisHandle :=
  match k with
  | .returned r => (g, r)
  | .awaitingConnect c => if connectOk then (g, some c) else (g, none)

/-- A full, uninterleaved call to `getRedisClient` (lines 13-37):
synchronous prefix, then the connect promise settles (`connectOk` says
whether it resolved), then the continuation runs.  Returns the new
module state, the value returned to the caller, and the number of
connect attempts performed by this call. -/
def getRedisClient (g : RedisGlobal) (connectOk : Bool) (freshId : Nat) :
    RedisGlobal × Option RedisHandle × Nat :=
  let s := getRedisClientSync g freshId
  let f := getRedisClientSettle s.1 s.2.1 connectOk
  (f.1, f.2, s.2.2)

/-- Outcome of two concurrent first-time `getRedisClient` calls under the
event-loop schedule: caller A runs its synchronous prefix, then caller B
runs its synchronous prefix, then the (single) connect promise settles
and the suspended continuations resume. -/
structure TwoAcquireOutcome where
  final : RedisGlobal
  resA : Option RedisHandle
  resB : Option RedisHandle
  attempts : Nat
  deriving DecidableEq, Repr

/-- Two concurrent first-time calls to `getRedisClient` starting from the
uninitialized module state, as executed by the single-threaded event
loop: A's synchronous prefix runs first (assigning `redisClient` before
suspending at `await connect`, lines 20-29), then B's whole body runs
(B hits the memoized fast path at line 14 and returns without waiting
for the connect outcome), then the connect promise settles and A's
continuation resumes. -/
def twoConcurrentAcquires (connectOk : Bool) : TwoAcquireOutcome :=
  let a := getRedisClientSync ⟨none⟩ 0
  let b := getRedisClientSync a.1 1
  let fb := getRedisClientSettle b.1 b.2.1 connectOk
  let fa := getRedisClientSettle fb.1 a.2.1 connectOk
  ⟨fa.1, fa.2, fb.2, a.2.2 + b.2.2⟩

/-- Outcome of two back-to-back sequential `getRedisClient` calls where
the first call's connect attempt fails and the environment would let a
second attempt succeed. -/
structure TwoSequentialOutcome where
  final : RedisGlobal
  res1 : Option RedisHandle
  res2 : Option RedisHandle
  attempts1 : Nat
  attempts2 : Nat
  deriving DecidableEq, Repr

/-- Two sequential calls to `getRedisClient` from the uninitialized
module state: the first call's connect rejects; the second call runs in
an environment where a new connect attempt would succeed. -/
def twoSequentialAcquiresFirstFails : TwoSequentialOutcome :=
  let c1 := getRedisClient ⟨none⟩ false 0
  let c2 := getRedisClient c1.1 true 1
  ⟨c2.1, c1.2.1, c2.2.1, c1.2.2, c2.2.2⟩

/-! ## Redis data access (`getRedisData`, `setRedisData`, lines 39-71) -/

/-- Outcome of `await client.get(key)` (line 44): the key is absent
(Redis returns `null`), the key holds the string `s`, or the GET itself
rejects (backend unreachable mid-call). -/
inductive RedisGetOutcome where
  | missing
  | found (s : String)
  | raise
  deriving DecidableEq, Repr

/-- The tryable region of `getRedisData` after the client has been
acquired (lines 44-45), as an `Except`: a rejected GET or a throwing
`JSON.parse` is an exception.  `value ? JSON.parse(value) : null`
returns `null` both when GET returned `null` (key missing) and when the
stored string is empty (falsy). -/
def getRedisDataTry (client : Option RedisHandle) (getOut : RedisGetOutcome)
    (parse : String → Option Nat) : Except String (Option Nat) :=
  match client with
  | none => .ok none
  | some _ =>
    match getOut with
    | .raise => .error "redis get rejected"
    | .missing => .ok none
    | .found s =>
      if s.isEmpty then .ok none
      else
        match parse s with
        | some v => .ok (some v)
        | none => .error "JSON.parse threw"

/-- `getRedisData` (lines 39-50): acquires the client through
`getRedisClient` (line 41), returns `null` if there is none (line 42),
runs the tryable region, and the catch (lines 46-49) logs and returns
`null` on any exception.  Returns the new module state and the value the
caller sees. -/
def getRedisData (g : RedisGlobal) (connectOk : Bool) (freshId : Nat)
    (getOut : RedisGetOutcome) (parse : String → Option Nat) :
    RedisGlobal × Option Nat :=
  let c := getRedisClient g connectOk freshId
  match getRedisDataTry c.2.1 getOut parse with
  | .ok r => (c.1, r)
  | .error _ => (c.1, none)

/-- Outcome of the awaited store command `client.setEx`/`client.set`
(lines 62-64): it resolves or it rejects. -/
inductive RedisSetOutcome where
  | ok
  | raise
  deriving DecidableEq, Repr

/-- The tryable region of `setRedisData` after the client has been
acquired (lines 61-66): with a TTL it calls `setEx`, without one `set`;
either way a rejection is an exception, a resolution reaches
`return true`. -/
def setRedisDataTry (client : Option RedisHandle) (ttl : Option Nat)
    (setOut : RedisSetOutcome) : Except String Bool :=
  match client with
  | none => .ok false
  | some _ =>
    match ttl, setOut with
    | some _, .ok => .ok true
    | none, .ok => .ok true
    | _, .raise => .error "redis set rejected"

/-- `setRedisData` (lines 52-71): acquires the client (line 58), returns
`false` if there is none (line 59), stores the serialized value, and the
catch (lines 67-70) logs and returns `false` on any exception. -/
def setRedisData (g : RedisGlobal) (connectOk : Bool) (freshId : Nat)
    (ttl : Option Nat) (setOut : RedisSetOutcome) : RedisGlobal × Bool :=
  let c := getRedisClient g connectOk freshId
  match setRedisDataTry c.2.1 ttl setOut with
  | .ok r => (c.1, r)
  | .error _ => (c.1, false)

/-! ## ZMQ subscriber (module variable `zmqSocket`, lines 97-143) -/

/-- A ZMQ subscriber socket created by `new zmq.Subscriber()` (line 107).
`id` is a ghost tag for the creation site; `connectFailed` is a ghost
flag recording whether the `connect` call performed right after creation
(line 110) threw, i.e. whether this object is the product of a failed
connect attempt. -/
structure ZmqSocket where
  id : Nat
  connectFailed : Bool
  deriving DecidableEq, Repr

/-- `getZMQSubscriber` (lines 100-118): if the module variable
`zmqSocket` is set it is returned at once (line 104); otherwise a new
subscriber is assigned to the module variable (line 107) and then
connected (line 110).  If `connect` throws, the catch (lines 114-117)
logs and returns `null` — without clearing `zmqSocket`, which keeps the
socket created by the failed attempt.  Returns the new module state and
the value returned to the caller; `connectOk` says whether `connect`
succeeded, `freshId` tags a newly created socket. -/
def getZMQSubscriber (st : Option ZmqSocket) (connectOk : Bool)
    (freshId : Nat) : Option ZmqSocket × Option ZmqSocket :=
  match st with
  | some s => (some s, some s)
  | none =>
    if connectOk then (some ⟨freshId, false⟩, some ⟨freshId, false⟩)
    else (some ⟨freshId, true⟩, none)

/-- `checkZMQHealth` (lines 234-241): calls `getZMQSubscriber` and
returns `socket !== null`; the surrounding catch returns `false` on any
exception (none can escape `getZMQSubscriber`, which catches its own).
Returns the new module state and the boolean. -/
def checkZMQHealth (st : Option ZmqSocket) (connectOk : Bool)
    (freshId : Nat) : Option ZmqSocket × Bool :=
  let r := getZMQSubscriber st connectOk freshId
  (r.1, r.2.isSome)

/-- Whether the stored subscriber handle is the product of a failed
connect attempt (the claim's "was not the product of a failed connect"
reads this ghost flag). -/
def productOfFailedConnect : Option ZmqSocket → Bool
  | none => false
  | some s => s.connectFailed

/-! ## Stream consumption (`subscribeToZMQTopic`, lines 120-143) -/

/-- Observable trace of the message loop: `delivered` is the sequence of
decoded payloads passed to `callback` (line 135) in invocation order;
`processed` counts loop iterations completed, i.e. messages consumed
from the stream. -/
structure ConsumeTrace (α : Type) where
  delivered : List α
  processed : Nat
  deriving DecidableEq, Repr

/-- The `for await (const [msg] of socket)` loop body (lines 132-139):
each message is JSON-decoded and, on success, handed to the callback;
the `try`/`catch` inside the loop catches **both** a throwing
`JSON.parse` and a throwing callback, logs, and the loop continues with
the next message.  `parse` models `JSON.parse ∘ toString`;
`handlerThrows` models whether a given callback invocation throws — it
cannot influence the trace, because the catch swallows the exception
before the next iteration. -/
def consumeLoop {α : Type} (parse : String → Option α)
    (handlerThrows : α → Bool) : List String → ConsumeTrace α
  | [] => ⟨[], 0⟩
  | m :: rest =>
    let t := consumeLoop parse handlerThrows rest
    match parse m with
    | none => ⟨t.delivered, t.processed + 1⟩
    | some d => ⟨d :: t.delivered, t.processed + 1⟩

/-- `subscribeToZMQTopic` (lines 120-143): acquires the subscriber
socket; if it is absent the function returns before subscribing (line
126) and the loop never runs; otherwise it subscribes to the topic and
runs the message loop over the stream of raw messages. -/
def subscribeToZMQTopic {α : Type} (socket : Option ZmqSocket)
    (parse : String → Option α) (handlerThrows : α → Bool)
    (msgs : List String) : ConsumeTrace α :=
  match socket with
  | none => ⟨[], 0⟩
  | some _ => consumeLoop parse handlerThrows msgs

/-! ## MySQL pool (`queryMySQL`, lines 145-192) -/

/-- Observable state of the MySQL connection pool: how many connections
are currently checked out (not available to other callers).
`pool.getConnection()` (line 183) increments it; `connection.release()`
(line 185) decrements it. -/
structure PoolState where
  checkedOut : Nat
  deriving DecidableEq, Repr

/-- Outcome of `await connection.execute(sql, params)` (line 184): it
resolves with rows (abstracted to a count, the payload is opaque) or it
rejects (syntax error, lost connection, query timeout — anything that
makes the promise reject). -/
inductive ExecOutcome where
  | rows (n : Nat)
  | raise
  deriving DecidableEq, Repr

/-- `queryMySQL` (lines 175-192): gets the pool (line 180), returns
`null` if there is none (line 181); checks out a connection (line 183),
runs the statement (line 184), releases the connection (line 185) and
returns the rows (line 187).  The catch (lines 188-191) logs and returns
`null`.  Control flow on the error path: if `execute` rejects, control
jumps from line 184 straight to the catch, so `connection.release()` on
line 185 never runs and the connection stays checked out.  `getConnOk`
says whether `pool.getConnection()` resolved (a rejected checkout checks
nothing out).  Returns the new pool state and the rows or `null`. -/
def queryMySQL (pool : Option PoolState) (getConnOk : Bool)
    (exec : ExecOutcome) : Option PoolState × Option Nat :=
  match pool with
  | none => (none, none)
  | some st =>
    if getConnOk then
      let st1 : PoolState := ⟨st.checkedOut + 1⟩
      match exec with
      | .rows n => (some ⟨st1.checkedOut - 1⟩, some n)
      | .raise => (some st1, none)
    else (some st, none)

/-! ## Health checks (lines 194-252) -/

/-- Result of awaiting one primitive inside a health probe: the promise
resolves, rejects, or never settles (none of the probes in the source
carries a timeout, so a primitive that never settles blocks the probe
forever). -/
inductive PrimRes where
  | ok
  | raise
  | hang
  deriving DecidableEq, Repr

/-- What a probe does: completes with a boolean, or never completes. -/
inductive ProbeResult where
  | completes (healthy : Bool)
  | hangs
  deriving DecidableEq, Repr

/-- `checkRedisHealth` (lines 195-205): acquires the client, returns
`false` if there is none (line 198); `await client.ping()` (line 200)
resolving reaches `return true`, rejecting lands in the bare catch
(lines 202-204) which returns `false`, never settling blocks the probe. -/
def checkRedisHealth (client : Option RedisHandle) (ping : PrimRes) :
    ProbeResult :=
  match client with
  | none => .completes false
  | some _ =>
    match ping with
    | .ok => .completes true
    | .raise => .completes false
    | .hang => .hangs

/-- `getInfluxDBClient` (lines 76-80): the body is a placeholder that
unconditionally returns `null`. -/
def getInfluxDBClient : Option Unit := none

/-- `checkInfluxDBHealth` (lines 207-217): acquires the InfluxDB client,
returns `false` if there is none (line 210), `true` otherwise; the catch
returns `false`.  Since `getInfluxDBClient` always returns `null`, the
`return true` on line 213 is unreachable. -/
def checkInfluxDBHealth : ProbeResult :=
  match getInfluxDBClient with
  | none => .completes false
  | some _ => .completes true

/-- `checkMySQLHealth` (lines 219-232): gets the pool, returns `false`
if there is none (line 222); checks out a connection (line 224), pings
it (line 225), releases it (line 226) and returns `true`; any rejection
lands in the bare catch (lines 229-231) which returns `false`; a
primitive that never settles blocks the probe. -/
def checkMySQLHealth (pool : Option PoolState) (getConn : PrimRes)
    (ping : PrimRes) : ProbeResult :=
  match pool with
  | none => .completes false
  | some _ =>
    match getConn with
    | .raise => .completes false
    | .hang => .hangs
    | .ok =>
      match ping with
      | .ok => .completes true
      | .raise => .completes false
      | .hang => .hangs

/-- A value of the object literal built by `getSystemHealth` (lines
245-251): the four health booleans and the ISO timestamp (abstracted to
a number). -/
inductive HVal where
  | b (x : Bool)
  | time (t : Nat)
  deriving DecidableEq, Repr

/-- `getSystemHealth` (lines 244-252): awaits the four probes **one
after another** — `redis`, then `influxdb`, then `mysql`, then `zmq` —
and builds the object literal with exactly the keys `redis`, `influxdb`,
`mysql`, `zmq`, `timestamp` in source order.  If any probe never
completes, the corresponding `await` never resumes and no object is ever
produced (`none`); the source has no timeout around any probe. -/
def getSystemHealth (ts : Nat) (pr pi pm pz : ProbeResult) :
    Option (List (String × HVal)) :=
  match pr, pi, pm, pz with
  | .completes r, .completes i, .completes m, .completes z =>
    some [("redis", .b r), ("influxdb", .b i), ("mysql", .b m),
          ("zmq", .b z), ("timestamp", .time ts)]
  | _, _, _, _ => none

/-! ## Latency model of `getSystemHealth` (lines 244-252)

The four probes are awaited sequentially, so elapsed time composes by
addition across the awaits.  `Timed α` is an awaited computation with a
duration; `Timed.andThen` is the sequential composition performed by
consecutive `await`s in one async function body. -/

/-- An awaited computation: how long it takes to settle and the value it
settles with. -/
structure Timed (α : Type) where
  dur : Nat
  val : α
  deriving DecidableEq, Repr

/-- Sequential composition of awaited computations: the second starts
only after the first has settled, so durations add. -/
def Timed.andThen {α β : Type} (x : Timed α) (f : α → Timed β) : Timed β :=
  ⟨x.dur + (f x.val).dur, (f x.val).val⟩

/-- Latency-annotated `getSystemHealth` (lines 244-252): the object
literal evaluates `await checkRedisHealth()`, `await
checkInfluxDBHealth()`, `await checkMySQLHealth()`, `await
checkZMQHealth()` in that order, each `await` starting only after the
previous one settled. -/
def getSystemHealthTimed (ts : Nat) (pr pi pm pz : Timed Bool) :
    Timed (List (String × HVal)) :=
  pr.andThen fun r =>
    pi.andThen fun i =>
      pm.andThen fun m =>
        pz.andThen fun z =>
          ⟨0, [("redis", .b r), ("influxdb", .b i), ("mysql", .b m),
               ("zmq", .b z), ("timestamp", .time ts)]⟩

/-! ## Helper lemmas -/

/-- The message loop delivers exactly the decodable messages, in order,
and completes one iteration per message, whatever the handler does. -/
theorem consumeLoop_eq {α : Type} (parse : String → Option α)
    (ht : α → Bool) (msgs : List String) :
    consumeLoop parse ht msgs = ⟨msgs.filterMap parse, msgs.length⟩ := by
  induction msgs with
  | nil => rfl
  | cons m rest ih =>
    simp only [consumeLoop, ih, List.filterMap_cons, List.length_cons]
    cases parse m <;> rfl

/-! ## Claims -/

/-- C1 (code_bug evidence): `queryMySQL` against a reachable pool with no
connection checked out — on the success path the checked-out connection
is released (count back to 0) and the rows are returned, but when
`connection.execute` rejects, control jumps from line 184 to the catch
(line 188) and `connection.release()` (line 185) never runs: the call
returns `null` with the connection still checked out, so the pool has
permanently lost one available connection, contradicting the claim that
the connection is returned to the pool on every exit path. -/
theorem queryMySQL_leaks_connection_on_query_error :
    queryMySQL (some ⟨0⟩) true (.rows 3) = (some ⟨0⟩, some 3) ∧
    queryMySQL (some ⟨0⟩) true .raise = (some ⟨1⟩, none) := by
  decide

/-- C2 (counterexample): with all four probes taking 2 time units, the
claim says `getSystemHealth` completes within the slowest probe's bound
(2 units); the sequential `await`s in the source (lines 246-249) make it
take 8 units, so the probes are not issued concurrently. -/
theorem getSystemHealthTimed_exceeds_slowest_probe :
    ¬ (getSystemHealthTimed 0 ⟨2, true⟩ ⟨2, true⟩ ⟨2, true⟩
        ⟨2, true⟩).dur ≤ 2 := by
  decide

/-- C2 (amended): `getSystemHealth` awaits its four probes one after
another, so the aggregate call's elapsed time is exactly the **sum** of
the four probe durations, not the maximum. -/
theorem getSystemHealthTimed_duration_eq_sum (ts : Nat)
    (pr pi pm pz : Timed Bool) :
    (getSystemHealthTimed ts pr pi pm pz).dur =
      pr.dur + pi.dur + pm.dur + pz.dur := by
  simp only [getSystemHealthTimed, Timed.andThen]
  omega

/-- C3 (counterexample): two concurrent first-time `getRedisClient`
calls whose single connect attempt fails observe **different** outcomes:
the initiating caller gets `null` from the catch, while the second
caller — which hit the memoized fast path on line 14 after the module
variable was assigned on line 20, without waiting for the connect
outcome — gets the handle created by the failed attempt. -/
theorem twoConcurrentAcquires_outcomes_differ_on_failure :
    ¬ (twoConcurrentAcquires false).resA =
        (twoConcurrentAcquires false).resB := by
  decide

/-- C3 (amended): two concurrent first-time `getRedisClient` calls
perform exactly one connect attempt (the module variable is assigned
before the initiator suspends, so the second caller never starts a
second attempt), and when the connect succeeds both callers observe the
same handle; but the second caller receives the handle without waiting
for the connect outcome, so on failure the initiator observes absence
while the second caller observes the handle of the failed attempt. -/
theorem twoConcurrentAcquires_one_attempt_same_handle_on_success :
    (∀ ok : Bool, (twoConcurrentAcquires ok).attempts = 1) ∧
    (twoConcurrentAcquires true).resA = some ⟨0⟩ ∧
    (twoConcurrentAcquires true).resB = some ⟨0⟩ ∧
    (twoConcurrentAcquires false).resA = none ∧
    (twoConcurrentAcquires false).resB = some ⟨0⟩ := by
  decide

/-- C4 (counterexample): after a first `getRedisClient` call whose
connect failed (and returned `null`), the next call does **not** perform
a new connect attempt — it returns, via the memoized fast path on line
14, the very handle created by the failed attempt, because the catch on
lines 33-36 never cleared the module variable. -/
theorem twoSequentialAcquires_no_retry_after_failure :
    twoSequentialAcquiresFirstFails.res1 = none ∧
    ¬ twoSequentialAcquiresFirstFails.attempts2 = 1 ∧
    twoSequentialAcquiresFirstFails.res2 = some ⟨0⟩ := by
  decide

/-- C4 (amended): a `getRedisClient` call whose connect fails returns
`null` (one attempt made), but the module variable retains the handle
created by the failed attempt, so every subsequent call — whatever the
environment would now do — makes zero new connect attempts and returns
the handle produced by the failed attempt (no retry-on-demand). -/
theorem getRedisClient_returns_stale_handle_after_failure :
    ∀ ok2 : Bool,
      (getRedisClient ⟨none⟩ false 0).2.1 = none ∧
      (getRedisClient ⟨none⟩ false 0).2.2 = 1 ∧
      (getRedisClient (getRedisClient ⟨none⟩ false 0).1 ok2 1).2.2 = 0 ∧
      (getRedisClient (getRedisClient ⟨none⟩ false 0).1 ok2 1).2.1 =
        some ⟨0⟩ := by
  decide

/-- C5 (counterexample): when the MySQL probe's connection checkout
never settles (no probe in the source carries a timeout), the
corresponding `await` in `getSystemHealth` never resumes and **no**
report is produced at all — the claim that every combination of backend
outcomes, including probes that do not complete, yields a complete
report with `false` for the incomplete probe is false. -/
theorem getSystemHealth_no_report_when_probe_hangs :
    getSystemHealth 0 (.completes true) checkInfluxDBHealth
      (checkMySQLHealth (some ⟨0⟩) .hang .ok) (.completes true) = none := by
  decide

/-- C5 (amended): when every probe completes, `getSystemHealth` returns
a complete report — one boolean entry per backend plus a timestamp, in
the source's key order — and never raises; probes whose backend is
unreachable or whose primitive rejects complete with `false` (the bare
catches in lines 195-241 convert every rejection into `false`).  A probe
that never completes instead blocks the whole call, since the source has
no probe timeout. -/
theorem getSystemHealth_complete_report_when_probes_complete :
    (∀ (ts : Nat) (a b c d : Bool),
      getSystemHealth ts (.completes a) (.completes b) (.completes c)
          (.completes d) =
        some [("redis", .b a), ("influxdb", .b b), ("mysql", .b c),
              ("zmq", .b d), ("timestamp", .time ts)]) ∧
    (∀ p : PrimRes, checkRedisHealth none p = .completes false) ∧
    (∀ c : RedisHandle, checkRedisHealth (some c) .raise =
      .completes false) ∧
    (∀ g q : PrimRes, checkMySQLHealth none g q = .completes false) ∧
    (∀ st : PoolState, checkMySQLHealth (some st) .raise .ok =
      .completes false) ∧
    (∀ st : PoolState, checkMySQLHealth (some st) .ok .raise =
      .completes false) := by
  refine ⟨fun ts a b c d => rfl, fun p => ?_, fun c => rfl,
    fun g q => rfl, fun st => rfl, fun st => rfl⟩
  cases p <;> rfl

/-- C6 (confirmed): the message loop of `subscribeToZMQTopic` delivers
to the handler exactly the decodable messages, in the order received,
and completes one iteration per message — for **every** handler-throw
behavior `ht`, since the `try`/`catch` inside the loop (lines 133-138)
catches a throwing callback and continues; in particular, after the
handler raises on message 1, message 2 is still delivered afterward, and
no reordering ever occurs. -/
theorem subscribeToZMQTopic_delivers_in_order_despite_handler_raising
    (α : Type) (parse : String → Option α) (ht : α → Bool)
    (sock : ZmqSocket) (msgs : List String) :
    subscribeToZMQTopic (some sock) parse ht msgs =
      ⟨msgs.filterMap parse, msgs.length⟩ := by
  simpa [subscribeToZMQTopic] using consumeLoop_eq parse ht msgs

/-- C7 (confirmed): feeding the loop one malformed message followed by
one well-formed message results in exactly one handler invocation — with
the well-formed message's payload — and zero loop terminations (both
messages are consumed and the loop is ready for the next): the throwing
`JSON.parse` on the malformed message is caught on line 136 and the loop
continues without invoking the handler. -/
theorem subscribeToZMQTopic_skips_malformed_message
    (α : Type) (parse : String → Option α) (ht : α → Bool)
    (sock : ZmqSocket) (m1 m2 : String) (v2 : α)
    (h1 : parse m1 = none) (h2 : parse m2 = some v2) :
    subscribeToZMQTopic (some sock) parse ht [m1, m2] = ⟨[v2], 2⟩ := by
  simp [subscribeToZMQTopic, consumeLoop_eq, h1, h2]

/-- C7 witness: a concrete decoder, a malformed and a well-formed
message. -/
theorem subscribeToZMQTopic_skips_malformed_message_witness :
    ((fun s => if s = "good" then some 1 else none) "bad" = none ∧
     (fun s => if s = "good" then some 1 else none) "good" = some 1) ∧
    subscribeToZMQTopic (some ⟨0, false⟩)
      (fun s => if s = "good" then some 1 else none) (fun _ => true)
      ["bad", "good"] = ⟨[1], 2⟩ :=
  ⟨⟨by decide, by decide⟩,
    subscribeToZMQTopic_skips_malformed_message Nat
      (fun s => if s = "good" then some 1 else none) (fun _ => true)
      ⟨0, false⟩ "bad" "good" 1 (by decide) (by decide)⟩

/-- C8 (counterexample): after a first `checkZMQHealth` call whose
connect threw (the catch in `getZMQSubscriber` returned `null` but left
the module variable holding the socket created by the failed attempt), a
second `checkZMQHealth` call returns `true` even though the stored
handle is the product of a failed connect — the claimed equivalence
"returns true exactly when the handle is present and was not the product
of a failed connect" fails at this state. -/
theorem checkZMQHealth_true_after_failed_connect :
    ¬ ((checkZMQHealth (checkZMQHealth none false 0).1 true 1).2 = true ↔
        ((checkZMQHealth none false 0).1.isSome = true ∧
          productOfFailedConnect (checkZMQHealth none false 0).1 =
            false)) := by
  decide

/-- C8 (amended): `checkZMQHealth` never raises and returns `true` iff
the module-level socket variable is already set — regardless of whether
the stored socket's connect succeeded — or a fresh connect succeeds; a
socket created by a failed connect is retained by the module variable,
so every later call reports healthy. -/
theorem checkZMQHealth_true_iff_socket_present_or_connect_ok
    (st : Option ZmqSocket) (ok : Bool) (freshId : Nat) :
    (checkZMQHealth st ok freshId).2 = (st.isSome || ok) := by
  cases st <;> cases ok <;> simp [checkZMQHealth, getZMQSubscriber]

/-- C9 (confirmed): the cache is fail-open.  `getRedisData` returns the
same absence value (`none`) when the key is missing, when the backend is
unreachable (no client, or the GET rejects mid-call), and when
deserialization fails — the three cases are indistinguishable to the
caller — and returns the deserialized stored value when the key exists
and deserializes; `setRedisData` returns `false` instead of raising when
the backend is unavailable or the store command rejects, and `true` on
success.  Every exception is absorbed by the catches on lines 46 and 67,
so neither function raises. -/
theorem redis_cache_fail_open (g : RedisGlobal) (ok : Bool) (fid : Nat)
    (parse : String → Option Nat) (s t : String) (v : Nat)
    (ttl : Option Nat) (hs : parse s = some v) (hse : s.isEmpty = false)
    (ht : parse t = none) :
    (getRedisData g ok fid .missing parse).2 = none ∧
    (getRedisData ⟨none⟩ false fid (.found s) parse).2 = none ∧
    (getRedisData g ok fid .raise parse).2 = none ∧
    (getRedisData g ok fid (.found t) parse).2 = none ∧
    (getRedisData ⟨some ⟨fid⟩⟩ ok fid (.found s) parse).2 = some v ∧
    (setRedisData ⟨none⟩ false fid ttl .ok).2 = false ∧
    (setRedisData g ok fid ttl .raise).2 = false ∧
    (setRedisData ⟨some ⟨fid⟩⟩ ok fid ttl .ok).2 = true := by
  obtain ⟨rc⟩ := g
  refine ⟨?_, ?_, ?_, ?_, ?_, ?_, ?_, ?_⟩
  · cases rc <;> cases ok <;>
      simp [getRedisData, getRedisClient, getRedisClientSync,
        getRedisClientSettle, getRedisDataTry]
  · simp [getRedisData, getRedisClient, getRedisClientSync,
      getRedisClientSettle, getRedisDataTry]
  · cases rc <;> cases ok <;>
      simp [getRedisData, getRedisClient, getRedisClientSync,
        getRedisClientSettle, getRedisDataTry]
  · cases rc <;> cases ok <;> by_cases hte : t.isEmpty <;>
      simp [getRedisData, getRedisClient, getRedisClientSync,
        getRedisClientSettle, getRedisDataTry, ht, hte]
  · simp [getRedisData, getRedisClient, getRedisClientSync,
      getRedisClientSettle, getRedisDataTry, hs, hse]
  · simp [setRedisData, getRedisClient, getRedisClientSync,
      getRedisClientSettle, setRedisDataTry]
  · cases rc <;> cases ok <;> cases ttl <;>
      simp [setRedisData, getRedisClient, getRedisClientSync,
        getRedisClientSettle, setRedisDataTry]
  · cases ttl <;>
      simp [setRedisData, getRedisClient, getRedisClientSync,
        getRedisClientSettle, setRedisDataTry]

/-- C9 witness: concrete decoder, one string that deserializes and one
that does not. -/
theorem redis_cache_fail_open_witness :
    ((fun x => if x = "42" then some 42 else none) "42" = some (42 : Nat) ∧
     String.isEmpty "42" = false ∧
     (fun x => if x = "42" then some 42 else none) "no" = (none : Option Nat)) ∧
    ((getRedisData ⟨some ⟨5⟩⟩ true 5 .missing
        (fun x => if x = "42" then some 42 else none)).2 = none ∧
     (getRedisData ⟨none⟩ false 5 (.found "42")
        (fun x => if x = "42" then some 42 else none)).2 = none ∧
     (getRedisData ⟨some ⟨5⟩⟩ true 5 .raise
        (fun x => if x = "42" then some 42 else none)).2 = none ∧
     (getRedisData ⟨some ⟨5⟩⟩ true 5 (.found "no")
        (fun x => if x = "42" then some 42 else none)).2 = none ∧
     (getRedisData ⟨some ⟨5⟩⟩ true 5 (.found "42")
        (fun x => if x = "42" then some 42 else none)).2 = some 42 ∧
     (setRedisData ⟨none⟩ false 5 (some 9) .ok).2 = false ∧
     (setRedisData ⟨some ⟨5⟩⟩ true 5 (some 9) .raise).2 = false ∧
     (setRedisData ⟨some ⟨5⟩⟩ true 5 (some 9) .ok).2 = true) :=
  ⟨⟨by decide, by decide, by decide⟩,
    redis_cache_fail_open ⟨some ⟨5⟩⟩ true 5
      (fun x => if x = "42" then some 42 else none) "42" "no" 42 (some 9)
      (by decide) (by decide) (by decide)⟩

/-- C10 (confirmed): whenever `getSystemHealth` produces a report, the
report contains exactly the entries `redis`, `influxdb`, `mysql`, `zmq`
and `timestamp` (in the source's key order), and the `influxdb` entry is
`false` — `getInfluxDBClient` unconditionally returns `null` (line 79),
so `checkInfluxDBHealth` can never report healthy. -/
theorem getSystemHealth_exact_keys_and_influxdb_false
    (ts : Nat) (cr : Option RedisHandle) (pr : PrimRes)
    (pm : Option PoolState) (gc qc : PrimRes)
    (zs : Option ZmqSocket) (zok : Bool) (zid : Nat)
    (obj : List (String × HVal))
    (h : getSystemHealth ts (checkRedisHealth cr pr) checkInfluxDBHealth
        (checkMySQLHealth pm gc qc)
        (.completes (checkZMQHealth zs zok zid).2) = some obj) :
    obj.map Prod.fst = ["redis", "influxdb", "mysql", "zmq", "timestamp"] ∧
    obj.lookup "influxdb" = some (.b false) := by
  rw [show checkInfluxDBHealth = .completes false from rfl] at h
  cases hA : checkRedisHealth cr pr with
  | hangs => rw [hA] at h; simp [getSystemHealth] at h
  | completes a =>
    cases hM : checkMySQLHealth pm gc qc with
    | hangs => rw [hA, hM] at h; simp [getSystemHealth] at h
    | completes m =>
      rw [hA, hM] at h
      simp only [getSystemHealth, Option.some.injEq] at h
      subst h
      exact ⟨rfl, rfl⟩

/-- C10 witness: all probes complete, so a report is produced; its keys
and its `influxdb` entry are as stated. -/
theorem getSystemHealth_exact_keys_witness :
    (getSystemHealth 5 (checkRedisHealth (some ⟨0⟩) .ok)
        checkInfluxDBHealth (checkMySQLHealth (some ⟨0⟩) .ok .ok)
        (.completes (checkZMQHealth (some ⟨1, false⟩) true 2).2) =
      some [("redis", HVal.b true), ("influxdb", HVal.b false),
            ("mysql", HVal.b true), ("zmq", HVal.b true),
            ("timestamp", HVal.time 5)]) ∧
    ([("redis", HVal.b true), ("influxdb", HVal.b false),
      ("mysql", HVal.b true), ("zmq", HVal.b true),
      ("timestamp", HVal.time 5)].map Prod.fst =
        ["redis", "influxdb", "mysql", "zmq", "timestamp"] ∧
     [("redis", HVal.b true), ("influxdb", HVal.b false),
      ("mysql", HVal.b true), ("zmq", HVal.b true),
      ("timestamp", HVal.time 5)].lookup "influxdb" =
        some (HVal.b false)) :=
  ⟨by decide,
    getSystemHealth_exact_keys_and_influxdb_false 5 (some ⟨0⟩) .ok
      (some ⟨0⟩) .ok .ok (some ⟨1, false⟩) true 2 _ (by decide)⟩
